import Mathlib

/-!
Verification of the lotusd consensus-parameter tables and the validation
logic that consumes them: era-scoped coinbase reward address rotation,
coinbase validation, and the trusted-checkpoint fast-validation gate.

The address tables and chain-params constants are embedded verbatim from
`src/consensus/addresses.h` and the generated chainparams constants.  The
consuming logic (EraTable lookup, SubsidyDistributor, CoinbaseValidator,
CheckpointGate) is not present in the visible sources and is modelled from
the specification.
-/

namespace Consensus

/-- The five era-scoped reward address lists, as in `Consensus::CoinbaseAddresses`. -/
structure CoinbaseAddresses where
  genesis : List String
  exodus : List String
  leviticus : List String
  numbers : List String
  deuteronomy : List String
  deriving DecidableEq

end Consensus

namespace RewardAddresses

/-- `RewardAddresses::AddressSets` from `src/consensus/addresses.h`, embedded verbatim. -/
def AddressSets : Consensus.CoinbaseAddresses :=
  ⟨[ -- Foundation
    "pzmv0yp3kuwcd2cdv9lpu8nsdmzwud9s0upp4rxwc9",
    -- Bitcoin ABC
    "qzu2u8z8ala43ae0009gr8l8lsjjl8599cdwdr9mxq",
    -- Tobias
    "qz6shp4gj0vqe83wuu43n9sjxa9hknqumq0xdtwprp",
    -- Saipan Institute
    "qrd8dgcmvasdewg2535uzkt9mfhgqztwg504dhsfxc",
    -- Stamp
    "qqfjt5kchfhgclvelandy9fsj97vwdpf6g7sfclqsh",
    -- Nghia
    "qp4pwxy34w2yxqst6f64aauudev7l3vjv5xg6dhc7x",
    -- Remark
    "qqv73kxsak4ka3plqjm9d0lh9tmc6cllv5m9np8ndy",
    -- Bitcoin Not Bombs
    "qrryjt2wgnwdqpg7vz52m440q2e09ydj4gupmhu3g6",
    -- Distro Bot
    "qz66atlvnu5hyygvf340j5y283q7r5788vkcu6qff3",
    -- Distro Bot
    "qp7z3253hyl6lzhwpfjjpg9g8apdh39ytvlwfx57mm",
    -- Evangelism
    "qzccavyvf9uwwdyqwsa3txqxr5708rss4qqg8p6an4",
    -- Distro Bot
    "qp7s3y735fut4vn70tvjakyt6lww4lvr55ljvaxpyn",
    -- Distro Bot
    "qp9cd8u62hzhqq7lz79aeqq3ssgfmyz03vc5c4g0ct"],
   [ -- Aleph 0
    "lotus_16PSJNf1EDEfGvaYzaXJCJZrXH4pgiTo7kyW61iGi",
    -- Maintainance
    "lotus_16PSJNZhPZSyLeQaiEdy3a3gZdwQ2yAPqUm7WHRzN",
    -- Stamp
    "lotus_16PSJHhULzYgupzGnvDysUFLxYxBVwx92JjXSyjNL",
    -- VN
    "lotus_16PSJLMtCuFnyMb3rz4zbbhAtJgppp8GiY5NpGGev",
    -- Explorer
    "lotus_16PSJJQGXSV1uMG2JHERQpVL3pVH7nwqu2YSiX96t",
    -- Distro
    "lotus_16PSJHEXKQEL5M28Rc8rvYntymdKtPmVXJDEtbFLi",
    -- Evangelism
    "lotus_16PSJNnGguQxEhHHW569L3g3MfhCNsS1Q6AWrJ8AH",
    -- Lotusia Citizen 1
    "lotus_16PSJP5wAt1F45LycobZssN8Jk3TaR6QL9AXcRRty",
    -- Marketing
    "lotus_16PSJHej3n56z43NC4PgYAAubk8opBXt7JXXfHjwc",
    -- Lotusia Citizen 2
    "lotus_16PSJJSRTKjXKkvMtV6NX8SVEbTBwpjCWxQP7bHdi",
    -- Bots
    "lotus_16PSJHuUsbDo5qZUjygQgtJLMsZgcpSB6wD459F6J",
    -- Bot
    "lotus_16PSJJXVKnYb8xtUhHyBDSdd8P2xx6suUM7TaWBNx",
    -- Lotusia Citizen 3
    "lotus_16PSJKHmQ2Lm8BNtnvPi1jC4rxJpCo8VqvJecj5Hb"],
   [ -- Aleph 0
    "lotus_16PSJQTQMPHoT5AuGLm2UHcmbKLEFR43gHJChzTUy",
    -- Maintainance
    "lotus_16PSJJdodJ4VMACYzBd1ey1MiPaaT5XSWVnoxQvci",
    -- Stamp
    "lotus_16PSJHhULzYgupzGnvDysUFLxYxBVwx92JjXSyjNL",
    -- VN
    "lotus_16PSJLMtCuFnyMb3rz4zbbhAtJgppp8GiY5NpGGev",
    -- Explorer 2
    "lotus_16PSJMBaU1g7jvzCrXUCK5gxP6GHnSxEBYR3geqtX",
    -- Sales
    "lotus_16PSJQ3Wby3uP6XkPtKTULTFzMXU9JJXfr1UrzTZJ",
    -- Radical Evangelism
    "lotus_16PSJJjTw855ea3eJqEPTsuG6PkmLJw5eW4WVUjS7",
    -- Buddhism
    "lotus_16PSJQEzUwA2bpbkzvAiDtAviX1Ep5x9x5UhdcBV6",
    -- VN 2
    "lotus_16PSJNgypXoCzC2yQqz7wTGFCSL25qv4XZhxvQ28A",
    -- Ministry Of Truth
    "lotus_16PSJKEP97unf4XFVR6zzS3j2s3qJp8omSJkyyDWH",
    -- Podcasters
    "lotus_16PSJMwWGF6jNTbF8WgMuM49DZNmsWgY3b5e4itvd",
    -- Bots
    "lotus_16PSJHuUsbDo5qZUjygQgtJLMsZgcpSB6wD459F6J",
    -- Lotus Citizen 4
    "lotus_16PSJNEqzEoLhBigDN8Hf93FzERrPQKJXaYdzRCNT"],
   ["lotus_16PSJKzohkeX3G5BKpbeESKZZCHWrQymNRwjsu42Y",
    "lotus_16PSJHtDqN7ibmc4NSziqbrmAXoSLE46F9LceMUDx",
    "lotus_16PSJHhULzYgupzGnvDysUFLxYxBVwx92JjXSyjNL",
    "lotus_16PSJLTMsACkicNJVmAPBQgmEeagvkXKuF8gR2qE8",
    "lotus_16PSJPfz8J1KkScQUMZK8GabJgTGxr8c5WWidEQYS",
    "lotus_16PSJN2GzCj6PVwg4oTbiXftP7Jf3Ux2zB3X4A6Dw",
    "lotus_16PSJMtQgty32UmgzkomZYPavZaJb8kn3HUeD4jno",
    "lotus_16PSJLMtCuFnyMb3rz4zbbhAtJgppp8GiY5NpGGev",
    "lotus_16PSJP1z4qX4XeJprHPgw2GbY86GxMwT2DKmVmHqS",
    "lotus_16PSJNob8nN2U5e1WfpvpHbn28iJ8mr5ZbjsTNmzk",
    "lotus_16PSJM1j9nPx6xLbyJ4UMsT1XNMdZAsT6vayCiEhh",
    "lotus_16PSJL7B1pQm4pT3M4k6BeXNR8PXkvuv8BeosgUdA",
    "lotus_16PSJNfvYdAquq6X28omdnpMyixZX9JfF9MgmDX3H"],
   [ -- Note: nobody has private keys for these
    "lotus_16PSJMzwHUZRNKGRxj6M78GUriT4JE9JVHBJwsPDR",
    "lotus_16PSJQWWnyZvpXASxfYPnMuZgXuJe9Mi4Ko9E6AJJ",
    "lotus_16PSJPLfgb7mYuMsyveuCiiw2EefZTDRevVGKrhCz",
    "lotus_16PSJM5L7t1FvXnXYMKLBw5rBUNDewQwSxAnXnhcC",
    "lotus_16PSJQaE6rFjErEmzsYaL2dNq51RUn1CPsXFykDeo",
    "lotus_16PSJMsa5viW6TmE4TpJo2Ln5H5Tqu3bAsfRHEzcz",
    "lotus_16PSJQkFaM93LHjiZLT2N3sYi8Z5yoPuiCTK6LSFB",
    "lotus_16PSJM1S7w42U5vfPMHYFj2cuHnhsdVdrdc7BGGBV",
    "lotus_16PSJQfyDWDvCBayWdWFDkkq8dB1uLfHUc5mt24C5",
    "lotus_16PSJNYs6oFDXedfTMKBmJanibWk5akJgj6Ly1bxc",
    "lotus_16PSJNwovGUnVpdWJQDuzX2JkKX14QpRbPVXEf1SZ",
    "lotus_16PSJQr1FEMMWu6cAW4cWbXSJEkVLVsxwtzoiTKNS",
    "lotus_16PSJQhqxYBFLYmqkZqvs8cf6ydaaXRxJBCyHCffb"]⟩

end RewardAddresses

namespace ChainParamsConstants

/-- `MAINNET_DEFAULT_ASSUME_VALID` block hash, as a 256-bit natural number. -/
def MAINNET_DEFAULT_ASSUME_VALID : Nat :=
  0x00000000000000000bbf74c9cbc94a1b2efd539b191be565961c7867a3672101

/-- `MAINNET_MINIMUM_CHAIN_WORK`, as a 256-bit natural number. -/
def MAINNET_MINIMUM_CHAIN_WORK : Nat :=
  0x00000000000000000000000000000000000000000153873c309a54a154807f7b

/-- `MAINNET_ASSUMED_BLOCKCHAIN_SIZE` (gigabytes hint, no consensus weight). -/
def MAINNET_ASSUMED_BLOCKCHAIN_SIZE : Nat := 209

/-- `MAINNET_ASSUMED_CHAINSTATE_SIZE` (gigabytes hint, no consensus weight). -/
def MAINNET_ASSUMED_CHAINSTATE_SIZE : Nat := 3

/-- `TESTNET_DEFAULT_ASSUME_VALID` block hash, as a 256-bit natural number. -/
def TESTNET_DEFAULT_ASSUME_VALID : Nat :=
  0x00000000000922af6e587f3cddd4a3d715e046563935d85a2b5b6bfcd1c25ef7

/-- `TESTNET_MINIMUM_CHAIN_WORK`, as a 256-bit natural number. -/
def TESTNET_MINIMUM_CHAIN_WORK : Nat :=
  0x00000000000000000000000000000000000000000000006e7d5c32f4d4fec4f8

end ChainParamsConstants

namespace Lotus

/-- Modelled from the spec: an `Era` record `{name, first_height,
last_height_or_unbounded, addresses}` (spec section 3); the era-range and
lookup code is not among the visible sources. -/
structure Era where
  name : String
  firstHeight : Nat
  lastHeight : Option Nat
  addresses : List String
  deriving DecidableEq

/-- Modelled from the spec: an era contains height `h` when
`first_height ≤ h ≤ last_height`, the last height being absent for the
final, unbounded era. -/
def containsHeight (e : Era) (h : Nat) : Bool :=
  decide (e.firstHeight ≤ h) &&
    (match e.lastHeight with
     | none => true
     | some l => decide (h ≤ l))

/-- Modelled from the spec: the mainnet `EraTable` — an ordered sequence of
the five configured eras (genesis, exodus, leviticus, numbers,
deuteronomy), contiguous and covering `[0, +∞)`, the last unbounded.  The
concrete era start heights are not among the visible sources, so they are
parameters `b1 < b2 < b3 < b4`. -/
def mkEraTable (b1 b2 b3 b4 : Nat) : List Era :=
  [⟨"genesis", 0, some (b1 - 1), RewardAddresses.AddressSets.genesis⟩,
   ⟨"exodus", b1, some (b2 - 1), RewardAddresses.AddressSets.exodus⟩,
   ⟨"leviticus", b2, some (b3 - 1), RewardAddresses.AddressSets.leviticus⟩,
   ⟨"numbers", b3, some (b4 - 1), RewardAddresses.AddressSets.numbers⟩,
   ⟨"deuteronomy", b4, none, RewardAddresses.AddressSets.deuteronomy⟩]

/-- Modelled from the spec: resolve the active era for a height (spec
section 4.1); the first (by I1, the only) matching era of the table. -/
def findEra (tbl : List Era) (h : Nat) : Option Era :=
  tbl.find? (fun e => containsHeight e h)

/-- Modelled from the spec: `SubsidyDistributor.ExpectedAddress` (spec
section 4.1).  Resolves the active era, computes the rotation index
`idx = (height - era.first_height) mod len(era.addresses)` and returns
`era.addresses[idx]`; `none` is the `HeightOutOfRange` internal fault. -/
def ExpectedAddress (tbl : List Era) (height : Nat) : Option String :=
  match findEra tbl height with
  | none => none
  | some e => e.addresses[(height - e.firstHeight) % e.addresses.length]?

/-- Invariant I1 of the spec: every height is contained in exactly one era. -/
def I1 (tbl : List Era) : Prop :=
  ∀ h : Nat, ∃! e, e ∈ tbl ∧ containsHeight e h = true

/-- Invariant I2 of the spec: every era's address list is non-empty. -/
def I2 (tbl : List Era) : Prop :=
  ∀ e ∈ tbl, e.addresses ≠ []

/-- Modelled from the spec: a coinbase transaction output, an
`(amount, destination_script)` pair; the canonical output script is modelled
as a byte list. -/
structure TxOut where
  amount : Nat
  destScript : List Nat
  deriving DecidableEq

/-- Modelled from the spec: reasons a coinbase can be invalid; this core
produces only `MissingEraReward`. -/
inductive InvalidReason where
  | MissingEraReward
  deriving DecidableEq

/-- Modelled from the spec: `CoinbaseValidator.Validate` result. -/
inductive ValidationResult where
  | Valid
  | Invalid (reason : InvalidReason)
  deriving DecidableEq

/-- Modelled from the spec: `CoinbaseValidator.Validate` (spec section 4.2).
`decode` is the opaque `AddressCodec`.  Computes the expected address for
the height, decodes it, and scans the coinbase outputs for one whose
destination script equals the decoded script.  `none` propagates the
`HeightOutOfRange` internal fault of `ExpectedAddress`. -/
def Validate (decode : String → List Nat) (tbl : List Era) (height : Nat)
    (outputs : List TxOut) : Option ValidationResult :=
  match ExpectedAddress tbl height with
  | none => none
  | some expected =>
    if outputs.any (fun o => o.destScript == decode expected) then
      some ValidationResult.Valid
    else
      some (ValidationResult.Invalid InvalidReason.MissingEraReward)

/-- Modelled from the spec: the `CheckpointGate` classification states (spec
section 4.3). -/
inductive GateResult where
  | Unchecked
  | SkipDeepValidation
  | FullyValidate
  | Rejected
  deriving DecidableEq

/-- Modelled from the spec: `CheckpointGate.Classify` (spec section 4.3).
`isAncestorOfCheckpoint` is the answer of the external `AncestryIndex` for
"candidate is an ancestor of, or equal to, the trusted checkpoint hash";
`work` is the candidate's cumulative chain work and `minimumChainWork` the
configured threshold.  Rule 1: trust propagation; rule 2: low-work
rejection; rule 3: full validation by default. -/
def Classify (isAncestorOfCheckpoint : Bool) (work minimumChainWork : Nat) :
    GateResult :=
  if isAncestorOfCheckpoint then GateResult.SkipDeepValidation
  else if work < minimumChainWork then GateResult.Rejected
  else GateResult.FullyValidate

/-- Whether an address string belongs to the longer checksummed textual
family, recognisable by its `lotus_` marker at the start. -/
def startsWithLotus (a : String) : Bool :=
  "lotus_".data.isPrefixOf a.data

/-- `containsHeight` unfolded to arithmetic, for an era with a bounded range. -/
lemma containsHeight_some_iff (nm : String) (f l : Nat) (as : List String) (h : Nat) :
    containsHeight ⟨nm, f, some l, as⟩ h = true ↔ f ≤ h ∧ h ≤ l := by
  simp [containsHeight]

/-- `containsHeight` unfolded to arithmetic, for the unbounded final era. -/
lemma containsHeight_none_iff (nm : String) (f : Nat) (as : List String) (h : Nat) :
    containsHeight ⟨nm, f, none, as⟩ h = true ↔ f ≤ h := by
  simp [containsHeight]

/-- Coverage of the modelled era table: with ordered boundaries, every
height lies in exactly one era. -/
lemma mkEraTable_I1 (b1 b2 b3 b4 : Nat) (hb1 : 0 < b1) (h12 : b1 < b2)
    (h23 : b2 < b3) (h34 : b3 < b4) : I1 (mkEraTable b1 b2 b3 b4) := by
  intro h
  by_cases c1 : h < b1
  · refine ⟨⟨"genesis", 0, some (b1 - 1), RewardAddresses.AddressSets.genesis⟩,
      ⟨by simp [mkEraTable], by rw [containsHeight_some_iff]; omega⟩, ?_⟩
    rintro e ⟨hmem, hcont⟩
    simp only [mkEraTable, List.mem_cons, List.mem_singleton] at hmem
    rcases hmem with rfl | rfl | rfl | rfl | rfl | hf
    · rfl
    · rw [containsHeight_some_iff] at hcont; omega
    · rw [containsHeight_some_iff] at hcont; omega
    · rw [containsHeight_some_iff] at hcont; omega
    · rw [containsHeight_none_iff] at hcont; omega
    · exact absurd hf (List.not_mem_nil e)
  · by_cases c2 : h < b2
    · refine ⟨⟨"exodus", b1, some (b2 - 1), RewardAddresses.AddressSets.exodus⟩,
        ⟨by simp [mkEraTable], by rw [containsHeight_some_iff]; omega⟩, ?_⟩
      rintro e ⟨hmem, hcont⟩
      simp only [mkEraTable, List.mem_cons, List.mem_singleton] at hmem
      rcases hmem with rfl | rfl | rfl | rfl | rfl | hf
      · rw [containsHeight_some_iff] at hcont; omega
      · rfl
      · rw [containsHeight_some_iff] at hcont; omega
      · rw [containsHeight_some_iff] at hcont; omega
      · rw [containsHeight_none_iff] at hcont; omega
      · exact absurd hf (List.not_mem_nil e)
    · by_cases c3 : h < b3
      · refine ⟨⟨"leviticus", b2, some (b3 - 1), RewardAddresses.AddressSets.leviticus⟩,
          ⟨by simp [mkEraTable], by rw [containsHeight_some_iff]; omega⟩, ?_⟩
        rintro e ⟨hmem, hcont⟩
        simp only [mkEraTable, List.mem_cons, List.mem_singleton] at hmem
        rcases hmem with rfl | rfl | rfl | rfl | rfl | hf
        · rw [containsHeight_some_iff] at hcont; omega
        · rw [containsHeight_some_iff] at hcont; omega
        · rfl
        · rw [containsHeight_some_iff] at hcont; omega
        · rw [containsHeight_none_iff] at hcont; omega
        · exact absurd hf (List.not_mem_nil e)
      · by_cases c4 : h < b4
        · refine ⟨⟨"numbers", b3, some (b4 - 1), RewardAddresses.AddressSets.numbers⟩,
            ⟨by simp [mkEraTable], by rw [containsHeight_some_iff]; omega⟩, ?_⟩
          rintro e ⟨hmem, hcont⟩
          simp only [mkEraTable, List.mem_cons, List.mem_singleton] at hmem
          rcases hmem with rfl | rfl | rfl | rfl | rfl | hf
          · rw [containsHeight_some_iff] at hcont; omega
          · rw [containsHeight_some_iff] at hcont; omega
          · rw [containsHeight_some_iff] at hcont; omega
          · rfl
          · rw [containsHeight_none_iff] at hcont; omega
          · exact absurd hf (List.not_mem_nil e)
        · refine ⟨⟨"deuteronomy", b4, none, RewardAddresses.AddressSets.deuteronomy⟩,
            ⟨by simp [mkEraTable], by rw [containsHeight_none_iff]; omega⟩, ?_⟩
          rintro e ⟨hmem, hcont⟩
          simp only [mkEraTable, List.mem_cons, List.mem_singleton] at hmem
          rcases hmem with rfl | rfl | rfl | rfl | rfl | hf
          · rw [containsHeight_some_iff] at hcont; omega
          · rw [containsHeight_some_iff] at hcont; omega
          · rw [containsHeight_some_iff] at hcont; omega
          · rw [containsHeight_some_iff] at hcont; omega
          · rfl
          · exact absurd hf (List.not_mem_nil e)

/-- Every era of the modelled table has a non-empty address list. -/
lemma mkEraTable_I2 (b1 b2 b3 b4 : Nat) : I2 (mkEraTable b1 b2 b3 b4) := by
  intro e hmem
  simp only [mkEraTable, List.mem_cons, List.mem_singleton] at hmem
  rcases hmem with rfl | rfl | rfl | rfl | rfl | hf
  · simp [RewardAddresses.AddressSets]
  · simp [RewardAddresses.AddressSets]
  · simp [RewardAddresses.AddressSets]
  · simp [RewardAddresses.AddressSets]
  · simp [RewardAddresses.AddressSets]
  · exact absurd hf (List.not_mem_nil e)

/-- Under I1, `findEra` finds the unique containing era. -/
lemma findEra_of_I1 (tbl : List Era) (hI1 : I1 tbl) (h : Nat) :
    ∃ e, findEra tbl h = some e ∧ e ∈ tbl ∧ containsHeight e h = true ∧
      ∀ e', e' ∈ tbl → containsHeight e' h = true → e' = e := by
  obtain ⟨e, ⟨hmem, hcont⟩, huniq⟩ := hI1 h
  have hne : findEra tbl h ≠ none := by
    intro hnone
    rw [findEra, List.find?_eq_none] at hnone
    exact hnone e hmem hcont
  obtain ⟨e₀, he₀⟩ := Option.ne_none_iff_exists'.mp hne
  have he₀' : tbl.find? (fun e => containsHeight e h) = some e₀ := he₀
  have hmem₀ : e₀ ∈ tbl := List.mem_of_find?_eq_some he₀'
  have hcont₀ : containsHeight e₀ h = true :=
    @List.find?_some Era (fun e => containsHeight e h) e₀ tbl he₀'
  have heq : e₀ = e := huniq e₀ ⟨hmem₀, hcont₀⟩
  subst heq
  exact ⟨e₀, he₀, hmem₀, hcont₀, fun e' hm hc => huniq e' ⟨hm, hc⟩⟩

/-- Under I1 and I2, `ExpectedAddress` succeeds and returns the rotation
entry of the active era. -/
lemma expectedAddress_spec (tbl : List Era) (hI1 : I1 tbl) (hI2 : I2 tbl) (h : Nat) :
    ∃ e, findEra tbl h = some e ∧ e ∈ tbl ∧ containsHeight e h = true ∧
      (∀ e', e' ∈ tbl → containsHeight e' h = true → e' = e) ∧
      ExpectedAddress tbl h =
        e.addresses[(h - e.firstHeight) % e.addresses.length]? ∧
      (ExpectedAddress tbl h).isSome = true := by
  obtain ⟨e, hfind, hmem, hcont, huniq⟩ := findEra_of_I1 tbl hI1 h
  have hpos : 0 < e.addresses.length := List.length_pos.mpr (hI2 e hmem)
  have hlt : (h - e.firstHeight) % e.addresses.length < e.addresses.length :=
    Nat.mod_lt _ hpos
  have heqn : ExpectedAddress tbl h =
      e.addresses[(h - e.firstHeight) % e.addresses.length]? := by
    rw [ExpectedAddress, hfind]
  refine ⟨e, hfind, hmem, hcont, huniq, heqn, ?_⟩
  rw [heqn, List.getElem?_eq_getElem hlt]
  rfl

/-- C1: on the domain guaranteed by I1, `ExpectedAddress h` resolves the
unique active era `e` and returns
`e.addresses[(h - e.first_height) mod len(e.addresses)]`; the function is
deterministic, pure (it is a Lean function) and total on that domain. -/
theorem expectedAddress_resolves_unique_era (tbl : List Era) (hI1 : I1 tbl)
    (hI2 : I2 tbl) (height : Nat) :
    ∃ e, e ∈ tbl ∧ containsHeight e height = true ∧
      (∀ e', e' ∈ tbl → containsHeight e' height = true → e' = e) ∧
      ExpectedAddress tbl height =
        e.addresses[(height - e.firstHeight) % e.addresses.length]? ∧
      (ExpectedAddress tbl height).isSome = true := by
  obtain ⟨e, _, hmem, hcont, huniq, heqn, hsome⟩ :=
    expectedAddress_spec tbl hI1 hI2 height
  exact ⟨e, hmem, hcont, huniq, heqn, hsome⟩

/-- Witness for C1: the genesis era a height 0 of a concrete table. -/
theorem expectedAddress_resolves_unique_era_witness :
    I1 (mkEraTable 100 200 300 400) ∧ I2 (mkEraTable 100 200 300 400) ∧
    (∃ e, e ∈ mkEraTable 100 200 300 400 ∧ containsHeight e 0 = true ∧
      (∀ e', e' ∈ mkEraTable 100 200 300 400 → containsHeight e' 0 = true → e' = e) ∧
      ExpectedAddress (mkEraTable 100 200 300 400) 0 =
        e.addresses[(0 - e.firstHeight) % e.addresses.length]? ∧
      (ExpectedAddress (mkEraTable 100 200 300 400) 0).isSome = true) :=
  ⟨mkEraTable_I1 100 200 300 400 (by decide) (by decide) (by decide) (by decide),
   mkEraTable_I2 100 200 300 400,
   expectedAddress_resolves_unique_era (mkEraTable 100 200 300 400)
     (mkEraTable_I1 100 200 300 400 (by decide) (by decide) (by decide) (by decide))
     (mkEraTable_I2 100 200 300 400) 0⟩

/-- C2: `Validate h c` is `Valid` exactly when some output of the coinbase
carries the canonical decoding of `ExpectedAddress h` as its destination
script, and is `Invalid MissingEraReward` otherwise; it is a pure predicate
with no side effects. -/
theorem validate_valid_iff_expected_output (decode : String → List Nat)
    (tbl : List Era) (height : Nat) (outputs : List TxOut) (expected : String)
    (hexp : ExpectedAddress tbl height = some expected) :
    (Validate decode tbl height outputs = some ValidationResult.Valid ↔
      ∃ o ∈ outputs, o.destScript = decode expected) ∧
    ((¬ ∃ o ∈ outputs, o.destScript = decode expected) →
      Validate decode tbl height outputs =
        some (ValidationResult.Invalid InvalidReason.MissingEraReward)) := by
  have hval : Validate decode tbl height outputs =
      if outputs.any (fun o => o.destScript == decode expected) then
        some ValidationResult.Valid
      else some (ValidationResult.Invalid InvalidReason.MissingEraReward) := by
    rw [Validate, hexp]
  have hany : outputs.any (fun o => o.destScript == decode expected) = true ↔
      ∃ o ∈ outputs, o.destScript = decode expected := by
    simp [List.any_eq_true]
  constructor
  · constructor
    · intro hv
      by_cases hc : outputs.any (fun o => o.destScript == decode expected)
      · exact hany.mp hc
      · rw [hval, if_neg hc] at hv
        exact absurd hv (by simp)
    · intro hex
      rw [hval, if_pos (hany.mpr hex)]
  · intro hnex
    rw [hval, if_neg (fun hc => hnex (hany.mp hc))]

/-- Witness for C2: at height 0 of a concrete table the expected address is
the first genesis-era address, and a coinbase paying its decoded script
validates. -/
theorem validate_valid_iff_expected_output_witness :
    ExpectedAddress (mkEraTable 100 200 300 400) 0 =
      some "pzmv0yp3kuwcd2cdv9lpu8nsdmzwud9s0upp4rxwc9" ∧
    ((Validate (fun s => s.data.map Char.toNat) (mkEraTable 100 200 300 400) 0
        [⟨260000000, "pzmv0yp3kuwcd2cdv9lpu8nsdmzwud9s0upp4rxwc9".data.map Char.toNat⟩] =
        some ValidationResult.Valid ↔
      ∃ o ∈ [(⟨260000000,
          "pzmv0yp3kuwcd2cdv9lpu8nsdmzwud9s0upp4rxwc9".data.map Char.toNat⟩ : TxOut)],
        o.destScript =
          (fun s : String => s.data.map Char.toNat)
            "pzmv0yp3kuwcd2cdv9lpu8nsdmzwud9s0upp4rxwc9") ∧
    ((¬ ∃ o ∈ [(⟨260000000,
          "pzmv0yp3kuwcd2cdv9lpu8nsdmzwud9s0upp4rxwc9".data.map Char.toNat⟩ : TxOut)],
        o.destScript =
          (fun s : String => s.data.map Char.toNat)
            "pzmv0yp3kuwcd2cdv9lpu8nsdmzwud9s0upp4rxwc9") →
      Validate (fun s => s.data.map Char.toNat) (mkEraTable 100 200 300 400) 0
        [⟨260000000, "pzmv0yp3kuwcd2cdv9lpu8nsdmzwud9s0upp4rxwc9".data.map Char.toNat⟩] =
        some (ValidationResult.Invalid InvalidReason.MissingEraReward))) :=
  ⟨rfl,
   validate_valid_iff_expected_output (fun s => s.data.map Char.toNat)
     (mkEraTable 100 200 300 400) 0
     [⟨260000000, "pzmv0yp3kuwcd2cdv9lpu8nsdmzwud9s0upp4rxwc9".data.map Char.toNat⟩]
     "pzmv0yp3kuwcd2cdv9lpu8nsdmzwud9s0upp4rxwc9" rfl⟩

/-- C3: a candidate that is an ancestor of (or equal to) the trusted
checkpoint hash always classifies as `SkipDeepValidation`, regardless of its
cumulative work and of the configured threshold. -/
theorem classify_ancestor_skips (work minimumChainWork : Nat) :
    Classify true work minimumChainWork = GateResult.SkipDeepValidation := rfl

/-- C4: for a non-ancestor candidate the gate rejects strictly below the
minimum-chain-work threshold and fully validates at or above it; the
boundary is inclusive on the accept side. -/
theorem classify_work_threshold (work minimumChainWork : Nat) :
    (work < minimumChainWork →
      Classify false work minimumChainWork = GateResult.Rejected) ∧
    (minimumChainWork ≤ work →
      Classify false work minimumChainWork = GateResult.FullyValidate) := by
  constructor
  · intro hlt
    simp [Classify, hlt]
  · intro hle
    simp [Classify, Nat.not_lt.mpr hle]

/-- Witness for C4: the boundary at the embedded mainnet minimum-chain-work
constant, at work `threshold - 1` and exactly at the threshold. -/
theorem classify_work_threshold_witness :
    (ChainParamsConstants.MAINNET_MINIMUM_CHAIN_WORK - 1 <
        ChainParamsConstants.MAINNET_MINIMUM_CHAIN_WORK ∧
      Classify false (ChainParamsConstants.MAINNET_MINIMUM_CHAIN_WORK - 1)
        ChainParamsConstants.MAINNET_MINIMUM_CHAIN_WORK = GateResult.Rejected) ∧
    (ChainParamsConstants.MAINNET_MINIMUM_CHAIN_WORK ≤
        ChainParamsConstants.MAINNET_MINIMUM_CHAIN_WORK ∧
      Classify false ChainParamsConstants.MAINNET_MINIMUM_CHAIN_WORK
        ChainParamsConstants.MAINNET_MINIMUM_CHAIN_WORK = GateResult.FullyValidate) :=
  ⟨⟨by decide,
    (classify_work_threshold (ChainParamsConstants.MAINNET_MINIMUM_CHAIN_WORK - 1)
      ChainParamsConstants.MAINNET_MINIMUM_CHAIN_WORK).1 (by decide)⟩,
   ⟨Nat.le_refl _,
    (classify_work_threshold ChainParamsConstants.MAINNET_MINIMUM_CHAIN_WORK
      ChainParamsConstants.MAINNET_MINIMUM_CHAIN_WORK).2 (Nat.le_refl _)⟩⟩

/-- C5: with ordered era boundaries, every height `h ≥ 0` is contained in
exactly one era of the table: the five eras are contiguous,
non-overlapping, and cover `[0, +∞)` with no gaps. -/
theorem eraTable_exactly_one_era (b1 b2 b3 b4 : Nat) (hb1 : 0 < b1)
    (h12 : b1 < b2) (h23 : b2 < b3) (h34 : b3 < b4) (h : Nat) :
    ∃! e, e ∈ mkEraTable b1 b2 b3 b4 ∧ containsHeight e h = true :=
  mkEraTable_I1 b1 b2 b3 b4 hb1 h12 h23 h34 h

/-- Witness for C5: a concrete table and the height 250, inside the third era. -/
theorem eraTable_exactly_one_era_witness :
    0 < 100 ∧ 100 < 200 ∧ 200 < 300 ∧ 300 < 400 ∧
    ∃! e, e ∈ mkEraTable 100 200 300 400 ∧ containsHeight e 250 = true :=
  ⟨by decide, by decide, by decide, by decide,
   eraTable_exactly_one_era 100 200 300 400 (by decide) (by decide) (by decide)
     (by decide) 250⟩

/-- C6: rotation is per-era.  For an era `e` with first height `h0` and
address list of length `n`: `ExpectedAddress h0 = addresses[0]`,
`ExpectedAddress (h0+n-1) = addresses[n-1]`, and
`ExpectedAddress (h0+n) = addresses[0]` whenever those heights still fall
in era `e`; the phase resets to index 0 at the era's first height
independently of any previous era, and within the era `ExpectedAddress` is
periodic with period `n`. -/
theorem era_rotation_resets (tbl : List Era) (e : Era) (n : Nat)
    (hn : n = e.addresses.length) (hpos : 0 < n)
    (h0 : findEra tbl e.firstHeight = some e)
    (h1 : findEra tbl (e.firstHeight + (n - 1)) = some e)
    (h2 : findEra tbl (e.firstHeight + n) = some e) :
    ExpectedAddress tbl e.firstHeight = e.addresses[0]? ∧
    ExpectedAddress tbl (e.firstHeight + (n - 1)) = e.addresses[n - 1]? ∧
    ExpectedAddress tbl (e.firstHeight + n) = e.addresses[0]? ∧
    ∀ k, findEra tbl (e.firstHeight + k) = some e →
      findEra tbl (e.firstHeight + k + n) = some e →
      ExpectedAddress tbl (e.firstHeight + k + n) =
        ExpectedAddress tbl (e.firstHeight + k) := by
  subst hn
  refine ⟨?_, ?_, ?_, ?_⟩
  · simp only [ExpectedAddress, h0, Nat.sub_self, Nat.zero_mod]
  · simp only [ExpectedAddress, h1, Nat.add_sub_cancel_left]
    rw [Nat.mod_eq_of_lt (by omega)]
  · simp only [ExpectedAddress, h2, Nat.add_sub_cancel_left, Nat.mod_self]
  · intro k hk hkn
    have hkn' : findEra tbl (e.firstHeight + (k + e.addresses.length)) = some e := by
      rw [← Nat.add_assoc]
      exact hkn
    simp only [ExpectedAddress, hk, Nat.add_assoc, hkn', Nat.add_sub_cancel_left,
      Nat.add_mod_right]

/-- Witness for C6: the exodus era of a concrete table, n = 13. -/
theorem era_rotation_resets_witness :
    13 = (Era.mk "exodus" 100 (some 199) RewardAddresses.AddressSets.exodus).addresses.length ∧
    0 < 13 ∧
    findEra (mkEraTable 100 200 300 400) 100 =
      some (Era.mk "exodus" 100 (some 199) RewardAddresses.AddressSets.exodus) ∧
    findEra (mkEraTable 100 200 300 400) 112 =
      some (Era.mk "exodus" 100 (some 199) RewardAddresses.AddressSets.exodus) ∧
    findEra (mkEraTable 100 200 300 400) 113 =
      some (Era.mk "exodus" 100 (some 199) RewardAddresses.AddressSets.exodus) ∧
    (ExpectedAddress (mkEraTable 100 200 300 400) 100 =
      RewardAddresses.AddressSets.exodus[0]? ∧
    ExpectedAddress (mkEraTable 100 200 300 400) (100 + (13 - 1)) =
      RewardAddresses.AddressSets.exodus[13 - 1]? ∧
    ExpectedAddress (mkEraTable 100 200 300 400) (100 + 13) =
      RewardAddresses.AddressSets.exodus[0]? ∧
    ∀ k, findEra (mkEraTable 100 200 300 400) (100 + k) =
        some (Era.mk "exodus" 100 (some 199) RewardAddresses.AddressSets.exodus) →
      findEra (mkEraTable 100 200 300 400) (100 + k + 13) =
        some (Era.mk "exodus" 100 (some 199) RewardAddresses.AddressSets.exodus) →
      ExpectedAddress (mkEraTable 100 200 300 400) (100 + k + 13) =
        ExpectedAddress (mkEraTable 100 200 300 400) (100 + k)) :=
  ⟨rfl, by decide, rfl, rfl, rfl,
   era_rotation_resets (mkEraTable 100 200 300 400)
     (Era.mk "exodus" 100 (some 199) RewardAddresses.AddressSets.exodus)
     13 rfl (by decide) rfl rfl rfl⟩

/-- C7: under I1 and I2 the `HeightOutOfRange` branch of `ExpectedAddress`
is unreachable: the lookup succeeds at every height. -/
theorem expectedAddress_never_out_of_range (tbl : List Era) (hI1 : I1 tbl)
    (hI2 : I2 tbl) (height : Nat) :
    (ExpectedAddress tbl height).isSome = true ∧
      ExpectedAddress tbl height ≠ none := by
  obtain ⟨e, _, _, _, _, _, hsome⟩ := expectedAddress_spec tbl hI1 hI2 height
  exact ⟨hsome, fun hnone => by rw [hnone] at hsome; exact Bool.false_ne_true hsome⟩

/-- Witness for C7: a concrete table at height 1000000, in the unbounded era. -/
theorem expectedAddress_never_out_of_range_witness :
    I1 (mkEraTable 100 200 300 400) ∧ I2 (mkEraTable 100 200 300 400) ∧
    ((ExpectedAddress (mkEraTable 100 200 300 400) 1000000).isSome = true ∧
      ExpectedAddress (mkEraTable 100 200 300 400) 1000000 ≠ none) :=
  ⟨mkEraTable_I1 100 200 300 400 (by decide) (by decide) (by decide) (by decide),
   mkEraTable_I2 100 200 300 400,
   expectedAddress_never_out_of_range (mkEraTable 100 200 300 400)
     (mkEraTable_I1 100 200 300 400 (by decide) (by decide) (by decide) (by decide))
     (mkEraTable_I2 100 200 300 400) 1000000⟩

/-- C8: every one of the five configured eras (genesis, exodus, leviticus,
numbers, deuteronomy) lists exactly 13 addresses, so the rotation period is
13 blocks in every era of the configured table. -/
theorem all_eras_have_13_addresses :
    RewardAddresses.AddressSets.genesis.length = 13 ∧
    RewardAddresses.AddressSets.exodus.length = 13 ∧
    RewardAddresses.AddressSets.leviticus.length = 13 ∧
    RewardAddresses.AddressSets.numbers.length = 13 ∧
    RewardAddresses.AddressSets.deuteronomy.length = 13 ∧
    ∀ b1 b2 b3 b4 : Nat, ∀ e ∈ mkEraTable b1 b2 b3 b4,
      e.addresses.length = 13 := by
  refine ⟨rfl, rfl, rfl, rfl, rfl, ?_⟩
  intro b1 b2 b3 b4 e hmem
  simp only [mkEraTable, List.mem_cons, List.mem_singleton] at hmem
  rcases hmem with rfl | rfl | rfl | rfl | rfl | hf
  · rfl
  · rfl
  · rfl
  · rfl
  · rfl
  · exact absurd hf (List.not_mem_nil e)

/-- Witness for C8: the genesis-era entry of a concrete table. -/
theorem all_eras_have_13_addresses_witness :
    (Era.mk "genesis" 0 (some 99) RewardAddresses.AddressSets.genesis) ∈
      mkEraTable 100 200 300 400 ∧
    (Era.mk "genesis" 0 (some 99) RewardAddresses.AddressSets.genesis).addresses.length
      = 13 :=
  ⟨by simp [mkEraTable],
   all_eras_have_13_addresses.2.2.2.2.2 100 200 300 400
     (Era.mk "genesis" 0 (some 99) RewardAddresses.AddressSets.genesis)
     (by simp [mkEraTable])⟩

/-- C9: within each configured era the 13 address strings are pairwise
distinct, so `ExpectedAddress` is injective on the first 13 heights of an
era and each listed address is selected exactly once per rotation cycle;
across different eras address strings do repeat (witnessed here between
exodus and leviticus). -/
theorem era_addresses_pairwise_distinct :
    RewardAddresses.AddressSets.genesis.Nodup ∧
    RewardAddresses.AddressSets.exodus.Nodup ∧
    RewardAddresses.AddressSets.leviticus.Nodup ∧
    RewardAddresses.AddressSets.numbers.Nodup ∧
    RewardAddresses.AddressSets.deuteronomy.Nodup ∧
    (∃ a, a ∈ RewardAddresses.AddressSets.exodus ∧
      a ∈ RewardAddresses.AddressSets.leviticus) ∧
    ∀ (tbl : List Era) (e : Era) (i j : Nat),
      e.addresses.Nodup → i < e.addresses.length → j < e.addresses.length →
      findEra tbl (e.firstHeight + i) = some e →
      findEra tbl (e.firstHeight + j) = some e →
      ExpectedAddress tbl (e.firstHeight + i) =
        ExpectedAddress tbl (e.firstHeight + j) →
      i = j := by
  refine ⟨by decide, by decide, by decide, by decide, by decide,
    ⟨"lotus_16PSJHhULzYgupzGnvDysUFLxYxBVwx92JjXSyjNL", by decide, by decide⟩, ?_⟩
  intro tbl e i j hnd hi hj hfi hfj heq
  simp only [ExpectedAddress, hfi, hfj, Nat.add_sub_cancel_left] at heq
  rw [Nat.mod_eq_of_lt hi, Nat.mod_eq_of_lt hj, List.getElem?_eq_getElem hi,
    List.getElem?_eq_getElem hj] at heq
  have hget : e.addresses.get ⟨i, hi⟩ = e.addresses.get ⟨j, hj⟩ := by
    simpa using heq
  exact congrArg Fin.val (hnd.get_inj_iff.mp hget)

/-- Witness for C9: injectivity hypotheses instantiated at i = j = 2 in the
exodus era of a concrete table. -/
theorem era_addresses_pairwise_distinct_witness :
    (Era.mk "exodus" 100 (some 199) RewardAddresses.AddressSets.exodus).addresses.Nodup ∧
    2 < (Era.mk "exodus" 100 (some 199) RewardAddresses.AddressSets.exodus).addresses.length ∧
    findEra (mkEraTable 100 200 300 400)
      ((Era.mk "exodus" 100 (some 199) RewardAddresses.AddressSets.exodus).firstHeight + 2) =
      some (Era.mk "exodus" 100 (some 199) RewardAddresses.AddressSets.exodus) ∧
    (2 : Nat) = 2 :=
  ⟨by decide, by decide, rfl,
   era_addresses_pairwise_distinct.2.2.2.2.2.2 (mkEraTable 100 200 300 400)
     (Era.mk "exodus" 100 (some 199) RewardAddresses.AddressSets.exodus) 2 2
     (by decide) (by decide) (by decide) rfl rfl rfl⟩

/-- C10: all 13 genesis-era addresses belong to the short textual family
(no lotus marker at the start), and every address of the exodus, leviticus,
numbers and deuteronomy eras belongs to the longer checksummed family with
that marker; the two families partition exactly along the genesis /
post-genesis boundary. -/
theorem address_families_partition_at_genesis :
    RewardAddresses.AddressSets.genesis.all (fun a => !(startsWithLotus a)) = true ∧
    (RewardAddresses.AddressSets.exodus ++ RewardAddresses.AddressSets.leviticus ++
      RewardAddresses.AddressSets.numbers ++
      RewardAddresses.AddressSets.deuteronomy).all startsWithLotus = true := by
  exact ⟨by decide, by decide⟩

end Lotus
